import Mathlib

/-!
Verification of the activity-registry core of the Mergington High School
activities service (src/src/app.py).

The registry is a Python dict mapping activity names to activity records
(description, schedule, max_participants, participants).  We embed it as an
association list of (name, Activity) pairs; dict lookup becomes first-match
lookup and in-place mutation of one record becomes pointwise replacement at
the matching key.  The fallible endpoints become functions into `Except`:
`HTTPException` raises become `Except.error` (every raise in the source
happens before any mutation, so an error leaves the registry untouched).
-/

structure Activity where
  description : String
  schedule : String
  max_participants : Nat
  participants : List String
deriving Repr, DecidableEq

abbrev Registry := List (String × Activity)

/-- Error taxonomy of the service: `notFound` is HTTP 404 "Activity not
found"; the three conflicts are the HTTP 400 responses "Student already
signed up for this activity", "Activity is full", and "Student is not
registered for this activity". -/
inductive RegError where
  | notFound
  | conflictDuplicate
  | conflictFull
  | conflictNotRegistered
deriving Repr, DecidableEq

/-- Dict lookup `activities[activity_name]` (with the containment test
`activity_name in activities`): first entry whose key equals the name. -/
def lookupActivity : Registry → String → Option Activity
  | [], _ => none
  | (n, act) :: rest, name =>
      if n = name then some act else lookupActivity rest name

/-- In-place mutation of the record stored under `name`: every entry keyed
`name` is replaced by `act`, all other entries are untouched. -/
def updateActivity (reg : Registry) (name : String) (act : Activity) : Registry :=
  reg.map (fun e => if e.1 = name then (name, act) else e)

/-- The seeded in-memory activity database (src/src/app.py lines 23-78). -/
def activities : Registry :=
  [ ("Chess Club",
     { description := "Learn strategies and compete in chess tournaments",
       schedule := "Fridays, 3:30 PM - 5:00 PM",
       max_participants := 12,
       participants := ["michael@mergington.edu", "daniel@mergington.edu"] }),
    ("Programming Class",
     { description := "Learn programming fundamentals and build software projects",
       schedule := "Tuesdays and Thursdays, 3:30 PM - 4:30 PM",
       max_participants := 20,
       participants := ["emma@mergington.edu", "sophia@mergington.edu"] }),
    ("Gym Class",
     { description := "Physical education and sports activities",
       schedule := "Mondays, Wednesdays, Fridays, 2:00 PM - 3:00 PM",
       max_participants := 30,
       participants := ["john@mergington.edu", "olivia@mergington.edu"] }),
    ("Soccer Team",
     { description := "Competitive soccer team with practices and matches",
       schedule := "Mondays, Wednesdays, 4:00 PM - 6:00 PM",
       max_participants := 22,
       participants := ["liam@mergington.edu", "ava@mergington.edu"] }),
    ("Swimming Club",
     { description := "Lap swimming and technique training at the school pool",
       schedule := "Tuesdays and Thursdays, 5:00 PM - 6:30 PM",
       max_participants := 18,
       participants := ["noah@mergington.edu", "mia@mergington.edu"] }),
    ("Art Club",
     { description := "Explore drawing, painting, and mixed media projects",
       schedule := "Wednesdays, 3:45 PM - 5:00 PM",
       max_participants := 16,
       participants := ["isabella@mergington.edu", "lucas@mergington.edu"] }),
    ("Drama Club",
     { description := "Acting, play production, and stagecraft workshops",
       schedule := "Fridays, 4:00 PM - 6:00 PM",
       max_participants := 25,
       participants := ["charlotte@mergington.edu", "eli@mergington.edu"] }),
    ("Debate Team",
     { description := "Prepare for debate tournaments and practice public speaking",
       schedule := "Thursdays, 4:00 PM - 5:30 PM",
       max_participants := 14,
       participants := ["amelia@mergington.edu", "jack@mergington.edu"] }),
    ("Robotics Club",
     { description := "Design, build, and program robots for competitions",
       schedule := "Mondays and Wednesdays, 3:30 PM - 5:30 PM",
       max_participants := 12,
       participants := ["henry@mergington.edu", "zoe@mergington.edu"] }) ]

/-- `GET /activities`: returns the registry as is, no side effect. -/
def get_activities (reg : Registry) : Registry := reg

/-- `POST /activities/\x7bactivity_name\x7d/signup` (src/src/app.py lines
91-111): existence check, then duplicate check, then capacity check, then
append and confirmation message. -/
def signup_for_activity (reg : Registry) (activity_name email : String) :
    Except RegError (String × Registry) :=
  match lookupActivity reg activity_name with
  | none => Except.error RegError.notFound
  | some activity =>
      if email ∈ activity.participants then
        Except.error RegError.conflictDuplicate
      else if activity.participants.length ≥ activity.max_participants then
        Except.error RegError.conflictFull
      else
        Except.ok ("Signed up " ++ email ++ " for " ++ activity_name,
          updateActivity reg activity_name
            { activity with participants := activity.participants ++ [email] })

/-- Removal of the first occurrence of `email`, as Python `list.remove`. -/
def removeFirst : List String → String → List String
  | [], _ => []
  | x :: xs, email => if x = email then xs else x :: removeFirst xs email

/-- Modelled from the spec: the `DELETE /activities/\x7bactivity_name\x7d/unregister`
endpoint is absent from src/src/app.py (only its tests exist, in
tests/test_api.py).  Per spec section 4.1: existence check (`NotFound`),
then membership check (`Conflict` "not registered"), then removal of exactly
one occurrence of the participant id, preserving the order of the remaining
entries, with confirmation message "Unregistered \x7bemail\x7d from
\x7bactivity_name\x7d". -/
def unregister_from_activity (reg : Registry) (activity_name email : String) :
    Except RegError (String × Registry) :=
  match lookupActivity reg activity_name with
  | none => Except.error RegError.notFound
  | some activity =>
      if email ∈ activity.participants then
        Except.ok ("Unregistered " ++ email ++ " from " ++ activity_name,
          updateActivity reg activity_name
            { activity with participants := removeFirst activity.participants email })
      else
        Except.error RegError.conflictNotRegistered

/-- The registry state after an operation: the new registry on success, the
unchanged input on failure (every raise in the source precedes mutation). -/
def resultState (r : Except RegError (String × Registry)) (reg : Registry) : Registry :=
  match r with
  | Except.ok (_, reg') => reg'
  | Except.error _ => reg

/-- Capacity invariant: every activity record holds at most
`max_participants` participants. -/
def capacityOK (reg : Registry) : Prop :=
  ∀ e ∈ reg, (e : String × Activity).2.participants.length ≤ e.2.max_participants

/-- Uniqueness invariant: no participant id appears twice in any roster. -/
def uniqueOK (reg : Registry) : Prop :=
  ∀ e ∈ reg, (e : String × Activity).2.participants.Nodup

instance (reg : Registry) : Decidable (capacityOK reg) := by
  unfold capacityOK; infer_instance

instance (reg : Registry) : Decidable (uniqueOK reg) := by
  unfold uniqueOK; infer_instance

deriving instance DecidableEq for Except

/-- A small concrete registry used to instantiate universally quantified
theorems at explicit inputs. -/
def demoReg : Registry :=
  [ ("A", { description := "d", schedule := "s",
            max_participants := 2, participants := ["x"] }) ]

/-- Frame relation used for the frame property of register: entries
correspond pointwise, the key and the three non-roster fields never change,
and an entry whose key differs from the target name is entirely
unchanged. -/
def frameRel (a : String) (e e' : String × Activity) : Prop :=
  e.1 = e'.1 ∧ e.2.description = e'.2.description ∧
  e.2.schedule = e'.2.schedule ∧
  e.2.max_participants = e'.2.max_participants ∧
  (e.1 ≠ a → e.2 = e'.2)

example : capacityOK activities := by decide
example : uniqueOK activities := by decide

/-! ## Helper lemmas about lookup, update and removal -/

theorem lookupActivity_mem {reg : Registry} {a : String} {act : Activity}
    (h : lookupActivity reg a = some act) : (a, act) ∈ reg := by
  induction reg with
  | nil => simp [lookupActivity] at h
  | cons e rest ih =>
    obtain ⟨n, b⟩ := e
    by_cases hn : n = a
    · simp [lookupActivity, hn] at h
      subst hn; subst h
      exact List.mem_cons_self _ _
    · simp [lookupActivity, hn] at h
      exact List.mem_cons_of_mem _ (ih h)

theorem lookupActivity_eq_of_mem {reg : Registry} {a : String}
    {act act' : Activity} (hnd : (reg.map Prod.fst).Nodup)
    (hmem : (a, act') ∈ reg) (hl : lookupActivity reg a = some act) :
    act' = act := by
  induction reg with
  | nil => simp at hmem
  | cons e rest ih =>
    obtain ⟨n, b⟩ := e
    simp only [List.map_cons, List.nodup_cons] at hnd
    rcases List.mem_cons.mp hmem with h1 | h1
    · obtain ⟨hn, hb⟩ := Prod.mk.injEq .. ▸ h1
      subst hn
      simp [lookupActivity] at hl
      rw [hb, hl]
    · have hna : n ≠ a := by
        intro he
        exact hnd.1 (he ▸ List.mem_map.mpr ⟨(a, act'), h1, rfl⟩)
      simp [lookupActivity, hna] at hl
      exact ih hnd.2 h1 hl

theorem mem_updateActivity {reg : Registry} {a : String} {act : Activity}
    {e : String × Activity} (h : e ∈ updateActivity reg a act) :
    e ∈ reg ∨ e = (a, act) := by
  unfold updateActivity at h
  obtain ⟨e0, he0, heq⟩ := List.mem_map.mp h
  by_cases h1 : e0.1 = a
  · simp [h1] at heq
    right; exact heq.symm
  · simp [h1] at heq
    left; exact heq ▸ he0

theorem lookupActivity_updateActivity_self {reg : Registry} {a : String}
    {act0 act : Activity} (h : lookupActivity reg a = some act0) :
    lookupActivity (updateActivity reg a act) a = some act := by
  induction reg with
  | nil => simp [lookupActivity] at h
  | cons e rest ih =>
    obtain ⟨n, b⟩ := e
    show lookupActivity ((if n = a then (a, act) else (n, b)) :: updateActivity rest a act) a
        = some act
    by_cases hn : n = a
    · rw [if_pos hn]
      simp [lookupActivity]
    · rw [if_neg hn]
      have h' : lookupActivity rest a = some act0 := by
        simpa [lookupActivity, hn] using h
      simpa [lookupActivity, hn] using ih h'

theorem lookupActivity_updateActivity_ne {reg : Registry} {a b : String}
    {act : Activity} (h : b ≠ a) :
    lookupActivity (updateActivity reg a act) b = lookupActivity reg b := by
  induction reg with
  | nil => rfl
  | cons e rest ih =>
    obtain ⟨n, c⟩ := e
    show lookupActivity ((if n = a then (a, act) else (n, c)) :: updateActivity rest a act) b
        = lookupActivity ((n, c) :: rest) b
    by_cases hn : n = a
    · rw [if_pos hn]
      have hab : ¬a = b := fun he => h he.symm
      have hnb : ¬n = b := hn ▸ hab
      simp [lookupActivity, hab, hnb]
      exact ih
    · rw [if_neg hn]
      by_cases hb : n = b
      · simp [lookupActivity, hb]
      · simp [lookupActivity, hb]
        exact ih

theorem removeFirst_of_mem {l : List String} {p : String} (h : p ∈ l) :
    ∃ l₁ l₂, l = l₁ ++ p :: l₂ ∧ p ∉ l₁ ∧ removeFirst l p = l₁ ++ l₂ := by
  induction l with
  | nil => simp at h
  | cons x xs ih =>
    by_cases hx : x = p
    · exact ⟨[], xs, by simp [hx], by simp, by simp [removeFirst, hx]⟩
    · have hmem : p ∈ xs := by
        rcases List.mem_cons.mp h with h1 | h1
        · exact absurd h1.symm hx
        · exact h1
      obtain ⟨l₁, l₂, h1, h2, h3⟩ := ih hmem
      refine ⟨x :: l₁, l₂, by simp [h1], ?_, by simp [removeFirst, hx, h3]⟩
      intro hc
      rcases List.mem_cons.mp hc with h4 | h4
      · exact hx h4.symm
      · exact h2 h4

theorem removeFirst_append_notMem {l : List String} {p : String} (h : p ∉ l) :
    removeFirst (l ++ [p]) p = l := by
  induction l with
  | nil => simp [removeFirst]
  | cons x xs ih =>
    have hx : x ≠ p := fun he => h (by simp [he])
    have hxs : p ∉ xs := fun hm => h (List.mem_cons_of_mem _ hm)
    simp [removeFirst, hx, ih hxs]

theorem removeFirst_sublist (l : List String) (p : String) :
    (removeFirst l p).Sublist l := by
  induction l with
  | nil => simp [removeFirst]
  | cons x xs ih =>
    by_cases hx : x = p
    · simp [removeFirst, hx]
    · simp [removeFirst, hx]
      exact ih

/-! ## Inversion lemmas for the two fallible operations -/

theorem signup_ok_inv {reg : Registry} {a p msg : String} {reg' : Registry}
    (h : signup_for_activity reg a p = Except.ok (msg, reg')) :
    ∃ act, lookupActivity reg a = some act ∧ p ∉ act.participants ∧
      act.participants.length < act.max_participants ∧
      msg = "Signed up " ++ p ++ " for " ++ a ∧
      reg' = updateActivity reg a
        { act with participants := act.participants ++ [p] } := by
  unfold signup_for_activity at h
  cases hl : lookupActivity reg a with
  | none => rw [hl] at h; cases h
  | some act =>
    rw [hl] at h
    by_cases hm : p ∈ act.participants
    · simp [hm] at h
    · by_cases hc : act.participants.length ≥ act.max_participants
      · simp [hm, hc] at h
      · simp [hm, hc] at h
        exact ⟨act, rfl, hm, lt_of_not_ge hc, h.1.symm, h.2.symm⟩

theorem unregister_ok_inv {reg : Registry} {a p msg : String} {reg' : Registry}
    (h : unregister_from_activity reg a p = Except.ok (msg, reg')) :
    ∃ act, lookupActivity reg a = some act ∧ p ∈ act.participants ∧
      msg = "Unregistered " ++ p ++ " from " ++ a ∧
      reg' = updateActivity reg a
        { act with participants := removeFirst act.participants p } := by
  unfold unregister_from_activity at h
  cases hl : lookupActivity reg a with
  | none => rw [hl] at h; cases h
  | some act =>
    rw [hl] at h
    by_cases hm : p ∈ act.participants
    · simp [hm] at h
      exact ⟨act, rfl, hm, h.1.symm, h.2.symm⟩
    · simp [hm] at h

/-! ## Claim theorems -/

/-- C2: register checks its preconditions in the fixed order existence,
duplicate, capacity, and reports the first failing one: `notFound` when the
activity name is not a key of the registry (in particular even when every
roster is full), duplicate conflict when the id is already on the roster,
full conflict when the roster is at or above capacity; otherwise it
succeeds. -/
theorem signup_check_order (reg : Registry) (a p : String) :
    (lookupActivity reg a = none →
      signup_for_activity reg a p = Except.error RegError.notFound) ∧
    (∀ act, lookupActivity reg a = some act → p ∈ act.participants →
      signup_for_activity reg a p = Except.error RegError.conflictDuplicate) ∧
    (∀ act, lookupActivity reg a = some act → p ∉ act.participants →
      act.participants.length ≥ act.max_participants →
      signup_for_activity reg a p = Except.error RegError.conflictFull) ∧
    (∀ act, lookupActivity reg a = some act → p ∉ act.participants →
      act.participants.length < act.max_participants →
      ∃ msg reg', signup_for_activity reg a p = Except.ok (msg, reg')) := by
  refine ⟨?_, ?_, ?_, ?_⟩
  · intro h
    simp [signup_for_activity, h]
  · intro act h hm
    simp [signup_for_activity, h, hm]
  · intro act h hm hc
    simp [signup_for_activity, h, hm, hc]
  · intro act h hm hc
    exact ⟨"Signed up " ++ p ++ " for " ++ a,
      updateActivity reg a { act with participants := act.participants ++ [p] },
      by simp [signup_for_activity, h, hm, not_le.mpr hc]⟩

/-- Witness for C2: on the demo registry, a full nonexistent name reports
`notFound`, a present id reports the duplicate conflict, and a fresh id on
an activity with free capacity succeeds. -/
theorem signup_check_order_witness :
    signup_for_activity demoReg "B" "p" = Except.error RegError.notFound ∧
    signup_for_activity demoReg "A" "x" = Except.error RegError.conflictDuplicate ∧
    (∃ msg reg', signup_for_activity demoReg "A" "q" = Except.ok (msg, reg')) :=
  ⟨(signup_check_order demoReg "B" "p").1 (by decide),
   (signup_check_order demoReg "A" "x").2.1
     { description := "d", schedule := "s",
       max_participants := 2, participants := ["x"] } (by decide) (by decide),
   (signup_check_order demoReg "A" "q").2.2.2
     { description := "d", schedule := "s",
       max_participants := 2, participants := ["x"] } (by decide) (by decide) (by decide)⟩

/-- C9: register performs no format validation on the participant id: any
string id not already on the roster of an existing activity with free
capacity is accepted, the empty string included (see the witness). -/
theorem signup_no_format_validation (reg : Registry) (a p : String)
    (act : Activity) (h : lookupActivity reg a = some act)
    (hm : p ∉ act.participants)
    (hc : act.participants.length < act.max_participants) :
    ∃ msg reg', signup_for_activity reg a p = Except.ok (msg, reg') :=
  ⟨"Signed up " ++ p ++ " for " ++ a,
   updateActivity reg a { act with participants := act.participants ++ [p] },
   by simp [signup_for_activity, h, hm, not_le.mpr hc]⟩

/-- Witness for C9: the empty string registers successfully. -/
theorem signup_no_format_validation_witness :
    ∃ msg reg', signup_for_activity demoReg "A" "" = Except.ok (msg, reg') :=
  signup_no_format_validation demoReg "A" ""
    { description := "d", schedule := "s",
      max_participants := 2, participants := ["x"] }
    (by decide) (by decide) (by decide)

/-- C5: on success, register appends the participant id at the end of the
roster (roster order is registration order) and the confirmation message
contains both the participant id and the activity name. -/
theorem signup_success_appends (reg : Registry) (a p msg : String)
    (reg' : Registry)
    (h : signup_for_activity reg a p = Except.ok (msg, reg')) :
    (∃ act act', lookupActivity reg a = some act ∧
      lookupActivity reg' a = some act' ∧
      act'.participants = act.participants ++ [p]) ∧
    (∃ u v w, msg = u ++ p ++ v ++ a ++ w) := by
  obtain ⟨act, hl, hm, hc, hmsg, hreg⟩ := signup_ok_inv h
  constructor
  · refine ⟨act, { act with participants := act.participants ++ [p] }, hl, ?_, rfl⟩
    rw [hreg]
    exact lookupActivity_updateActivity_self hl
  · refine ⟨"Signed up ", " for ", "", ?_⟩
    rw [hmsg]
    simp

/-- Witness for C5: a concrete successful signup on the demo registry. -/
theorem signup_success_appends_witness :
    (∃ act act', lookupActivity demoReg "A" = some act ∧
      lookupActivity (updateActivity demoReg "A"
        { description := "d", schedule := "s",
          max_participants := 2, participants := ["x", "q"] }) "A" = some act' ∧
      act'.participants = act.participants ++ ["q"]) ∧
    (∃ u v w, "Signed up q for A" = u ++ "q" ++ v ++ "A" ++ w) :=
  signup_success_appends demoReg "A" "q" "Signed up q for A"
    (updateActivity demoReg "A"
      { description := "d", schedule := "s",
        max_participants := 2, participants := ["x", "q"] }) (by decide)

/-- C1: unregister fails with `notFound` when the activity name is unknown,
fails with the not-registered conflict when the id is absent from the
roster, and on success removes exactly one (the first) occurrence of the
id, preserving the relative order of the remaining entries. -/
theorem unregister_spec_correct (reg : Registry) (a p : String) :
    (lookupActivity reg a = none →
      unregister_from_activity reg a p = Except.error RegError.notFound) ∧
    (∀ act, lookupActivity reg a = some act → p ∉ act.participants →
      unregister_from_activity reg a p =
        Except.error RegError.conflictNotRegistered) ∧
    (∀ act, lookupActivity reg a = some act → p ∈ act.participants →
      ∃ l₁ l₂, act.participants = l₁ ++ p :: l₂ ∧ p ∉ l₁ ∧
        unregister_from_activity reg a p =
          Except.ok ("Unregistered " ++ p ++ " from " ++ a,
            updateActivity reg a { act with participants := l₁ ++ l₂ })) := by
  refine ⟨?_, ?_, ?_⟩
  · intro h
    simp [unregister_from_activity, h]
  · intro act h hm
    simp [unregister_from_activity, h, hm]
  · intro act h hm
    obtain ⟨l₁, l₂, h1, h2, h3⟩ := removeFirst_of_mem hm
    refine ⟨l₁, l₂, h1, h2, ?_⟩
    simp [unregister_from_activity, h, hm, h3]

/-- Witness for C1: the three branches of unregister exercised on the demo
registry. -/
theorem unregister_spec_correct_witness :
    unregister_from_activity demoReg "B" "p" = Except.error RegError.notFound ∧
    unregister_from_activity demoReg "A" "q" =
      Except.error RegError.conflictNotRegistered ∧
    (∃ l₁ l₂, (["x"] : List String) = l₁ ++ "x" :: l₂ ∧ "x" ∉ l₁ ∧
      unregister_from_activity demoReg "A" "x" =
        Except.ok ("Unregistered " ++ "x" ++ " from " ++ "A",
          updateActivity demoReg "A"
            { description := "d", schedule := "s",
              max_participants := 2, participants := l₁ ++ l₂ })) :=
  ⟨(unregister_spec_correct demoReg "B" "p").1 (by decide),
   (unregister_spec_correct demoReg "A" "q").2.1
     { description := "d", schedule := "s",
       max_participants := 2, participants := ["x"] } (by decide) (by decide),
   (unregister_spec_correct demoReg "A" "x").2.2
     { description := "d", schedule := "s",
       max_participants := 2, participants := ["x"] } (by decide) (by decide)⟩

/-- C6: failure atomicity: whenever register or unregister fails, the
registry state after the call equals the state before the call (in the
source every `raise` happens before the single mutating statement). -/
theorem failure_atomicity (reg : Registry) (a p : String) (e : RegError) :
    (signup_for_activity reg a p = Except.error e →
      resultState (signup_for_activity reg a p) reg = reg) ∧
    (unregister_from_activity reg a p = Except.error e →
      resultState (unregister_from_activity reg a p) reg = reg) := by
  constructor
  · intro h
    rw [h]
    simp [resultState]
  · intro h
    rw [h]
    simp [resultState]

/-- Witness for C6: a failing signup (unknown activity) and a failing
unregister (id not on the roster) both leave the demo registry unchanged. -/
theorem failure_atomicity_witness :
    resultState (signup_for_activity demoReg "B" "p") demoReg = demoReg ∧
    resultState (unregister_from_activity demoReg "A" "q") demoReg = demoReg :=
  ⟨(failure_atomicity demoReg "B" "p" RegError.notFound).1 (by decide),
   (failure_atomicity demoReg "A" "q" RegError.conflictNotRegistered).2 (by decide)⟩

/-- C3: the capacity invariant holds in the seeded initial state and is
preserved by list, register and unregister, on success as on failure. -/
theorem capacity_invariant :
    capacityOK activities ∧
    ∀ reg a p, capacityOK reg →
      capacityOK (get_activities reg) ∧
      capacityOK (resultState (signup_for_activity reg a p) reg) ∧
      capacityOK (resultState (unregister_from_activity reg a p) reg) := by
  refine ⟨by decide, ?_⟩
  intro reg a p hreg
  refine ⟨hreg, ?_, ?_⟩
  · cases hs : signup_for_activity reg a p with
    | error e =>
      simpa [resultState] using hreg
    | ok v =>
      obtain ⟨msg, reg'⟩ := v
      obtain ⟨act, hl, hm, hc, hmsg, hreg'⟩ := signup_ok_inv hs
      show capacityOK reg'
      rw [hreg']
      intro e he
      rcases mem_updateActivity he with h1 | h1
      · exact hreg e h1
      · subst h1
        simp only [List.length_append, List.length_cons, List.length_nil]
        omega
  · cases hu : unregister_from_activity reg a p with
    | error e =>
      simpa [resultState] using hreg
    | ok v =>
      obtain ⟨msg, reg'⟩ := v
      obtain ⟨act, hl, hm, hmsg, hreg'⟩ := unregister_ok_inv hu
      show capacityOK reg'
      rw [hreg']
      intro e he
      rcases mem_updateActivity he with h1 | h1
      · exact hreg e h1
      · subst h1
        have hsub := (removeFirst_sublist act.participants p).length_le
        have hact := hreg (a, act) (lookupActivity_mem hl)
        exact le_trans hsub hact

/-- Witness for C3: preservation instantiated on the demo registry. -/
theorem capacity_invariant_witness :
    capacityOK (get_activities demoReg) ∧
    capacityOK (resultState (signup_for_activity demoReg "A" "q") demoReg) ∧
    capacityOK (resultState (unregister_from_activity demoReg "A" "q") demoReg) :=
  capacity_invariant.2 demoReg "A" "q" (by decide)

/-- C4: the uniqueness invariant (no duplicate ids on any roster) holds in
the seeded initial state and is preserved by list, register and
unregister, on success as on failure. -/
theorem uniqueness_invariant :
    uniqueOK activities ∧
    ∀ reg a p, uniqueOK reg →
      uniqueOK (get_activities reg) ∧
      uniqueOK (resultState (signup_for_activity reg a p) reg) ∧
      uniqueOK (resultState (unregister_from_activity reg a p) reg) := by
  refine ⟨by decide, ?_⟩
  intro reg a p hreg
  refine ⟨hreg, ?_, ?_⟩
  · cases hs : signup_for_activity reg a p with
    | error e =>
      simpa [resultState] using hreg
    | ok v =>
      obtain ⟨msg, reg'⟩ := v
      obtain ⟨act, hl, hm, hc, hmsg, hreg'⟩ := signup_ok_inv hs
      show uniqueOK reg'
      rw [hreg']
      intro e he
      rcases mem_updateActivity he with h1 | h1
      · exact hreg e h1
      · subst h1
        have hnd : act.participants.Nodup := hreg (a, act) (lookupActivity_mem hl)
        simp [List.nodup_append, hnd, hm]
  · cases hu : unregister_from_activity reg a p with
    | error e =>
      simpa [resultState] using hreg
    | ok v =>
      obtain ⟨msg, reg'⟩ := v
      obtain ⟨act, hl, hm, hmsg, hreg'⟩ := unregister_ok_inv hu
      show uniqueOK reg'
      rw [hreg']
      intro e he
      rcases mem_updateActivity he with h1 | h1
      · exact hreg e h1
      · subst h1
        have hnd : act.participants.Nodup := hreg (a, act) (lookupActivity_mem hl)
        exact hnd.sublist (removeFirst_sublist act.participants p)

/-- Witness for C4: preservation instantiated on the demo registry. -/
theorem uniqueness_invariant_witness :
    uniqueOK (get_activities demoReg) ∧
    uniqueOK (resultState (signup_for_activity demoReg "A" "q") demoReg) ∧
    uniqueOK (resultState (unregister_from_activity demoReg "A" "q") demoReg) :=
  uniqueness_invariant.2 demoReg "A" "q" (by decide)

/-- C8: if register succeeds, an immediately repeated register with the
same pair fails with the duplicate conflict, and the state after the second
call equals the state after the first. -/
theorem register_idempotent_failure (reg : Registry) (a p msg : String)
    (reg' : Registry)
    (h : signup_for_activity reg a p = Except.ok (msg, reg')) :
    signup_for_activity reg' a p = Except.error RegError.conflictDuplicate ∧
    resultState (signup_for_activity reg' a p) reg' = reg' := by
  obtain ⟨act, hl, hm, hc, hmsg, hreg'⟩ := signup_ok_inv h
  have hl' : lookupActivity reg' a =
      some { act with participants := act.participants ++ [p] } := by
    rw [hreg']
    exact lookupActivity_updateActivity_self hl
  have hp : p ∈ ({ act with participants := act.participants ++ [p] } :
      Activity).participants := by simp
  have herr : signup_for_activity reg' a p =
      Except.error RegError.conflictDuplicate := by
    simp [signup_for_activity, hl', hp]
  exact ⟨herr, by rw [herr]; simp [resultState]⟩

/-- Witness for C8: a successful signup on the demo registry followed by
the same signup again. -/
theorem register_idempotent_failure_witness :
    signup_for_activity
      (updateActivity demoReg "A"
        { description := "d", schedule := "s",
          max_participants := 2, participants := ["x", "q"] }) "A" "q" =
      Except.error RegError.conflictDuplicate ∧
    resultState
      (signup_for_activity
        (updateActivity demoReg "A"
          { description := "d", schedule := "s",
            max_participants := 2, participants := ["x", "q"] }) "A" "q")
      (updateActivity demoReg "A"
        { description := "d", schedule := "s",
          max_participants := 2, participants := ["x", "q"] }) =
      updateActivity demoReg "A"
        { description := "d", schedule := "s",
          max_participants := 2, participants := ["x", "q"] } :=
  register_idempotent_failure demoReg "A" "q" "Signed up q for A"
    (updateActivity demoReg "A"
      { description := "d", schedule := "s",
        max_participants := 2, participants := ["x", "q"] }) (by decide)

/-- C7: round-trip: from a registry satisfying the capacity and uniqueness
invariants, a successful register immediately followed by unregister of the
same pair succeeds and restores activity a to its exact prior roster, value
and order included. -/
theorem register_unregister_roundtrip (reg : Registry) (a p msg : String)
    (reg' : Registry) (hcap : capacityOK reg) (huniq : uniqueOK reg)
    (h : signup_for_activity reg a p = Except.ok (msg, reg')) :
    ∃ msg2 reg'' act act'',
      unregister_from_activity reg' a p = Except.ok (msg2, reg'') ∧
      lookupActivity reg a = some act ∧
      lookupActivity reg'' a = some act'' ∧
      act''.participants = act.participants := by
  obtain ⟨act, hl, hm, hc, hmsg, hreg'⟩ := signup_ok_inv h
  have hl' : lookupActivity reg' a =
      some { act with participants := act.participants ++ [p] } := by
    rw [hreg']
    exact lookupActivity_updateActivity_self hl
  have hp : p ∈ ({ act with participants := act.participants ++ [p] } :
      Activity).participants := by simp
  have hrm : removeFirst
      ({ act with participants := act.participants ++ [p] } :
        Activity).participants p = act.participants :=
    removeFirst_append_notMem hm
  have hu : unregister_from_activity reg' a p =
      Except.ok ("Unregistered " ++ p ++ " from " ++ a,
        updateActivity reg' a { act with participants := act.participants }) := by
    simp [unregister_from_activity, hl', hp, hrm]
  refine ⟨_, _, act, { act with participants := act.participants },
    hu, hl, ?_, rfl⟩
  exact lookupActivity_updateActivity_self hl'

/-- Witness for C7: the round-trip exercised on the demo registry. -/
theorem register_unregister_roundtrip_witness :
    ∃ msg2 reg'' act act'',
      unregister_from_activity
        (updateActivity demoReg "A"
          { description := "d", schedule := "s",
            max_participants := 2, participants := ["x", "q"] }) "A" "q" =
        Except.ok (msg2, reg'') ∧
      lookupActivity demoReg "A" = some act ∧
      lookupActivity reg'' "A" = some act'' ∧
      act''.participants = act.participants :=
  register_unregister_roundtrip demoReg "A" "q" "Signed up q for A"
    (updateActivity demoReg "A"
      { description := "d", schedule := "s",
        max_participants := 2, participants := ["x", "q"] })
    (by decide) (by decide) (by decide)

/-- C10: frame property of register: whether it succeeds or fails, a call
changes at most the roster of the named activity — pointwise, every entry
keeps its key, description, schedule and capacity, and every entry keyed by
a different name is entirely unchanged (so the key list, hence the set of
activity names, is preserved as well).  The hypothesis that keys are unique
reflects the dict data model of the source. -/
theorem signup_frame (reg : Registry) (a p : String)
    (hnd : (reg.map Prod.fst).Nodup) :
    List.Forall₂ (frameRel a) reg
      (resultState (signup_for_activity reg a p) reg) := by
  cases hs : signup_for_activity reg a p with
  | error e =>
    show List.Forall₂ (frameRel a) reg reg
    exact List.forall₂_same.mpr fun e he => ⟨rfl, rfl, rfl, rfl, fun _ => rfl⟩
  | ok v =>
    obtain ⟨msg, reg'⟩ := v
    obtain ⟨act, hl, hm, hc, hmsg, hreg'⟩ := signup_ok_inv hs
    show List.Forall₂ (frameRel a) reg reg'
    rw [hreg']
    unfold updateActivity
    rw [List.forall₂_map_right_iff]
    refine List.forall₂_same.mpr fun e he => ?_
    by_cases h1 : e.1 = a
    · have hmem : (a, e.2) ∈ reg := by
        rw [← h1]
        simpa using he
      have he2 : e.2 = act := lookupActivity_eq_of_mem hnd hmem hl
      simp [frameRel, h1, he2]
    · simp [frameRel, h1]

/-- Witness for C10: the frame relation on the demo registry for a
successful signup. -/
theorem signup_frame_witness :
    List.Forall₂ (frameRel "A") demoReg
      (resultState (signup_for_activity demoReg "A" "q") demoReg) :=
  signup_frame demoReg "A" "q" (by decide)
